import Mathlib

/-!
Shallow embedding of the data-loading and request/response contract layer of
`src/app.py` (a Streamlit article-recommender front end).

Conventions used throughout:
* Python exceptions are modelled as values of `PyErr`; code that can raise
  returns `Except PyErr _`.  A `try/except Exception` block is modelled by
  matching on the `Except` value.
* JSON values are modelled by `JVal`.  JSON numbers are modelled as integers
  (every identifier in the data set is integral); floating-point JSON literals
  are outside the model.
* The remote blob fetch (lines 22-24 of `src/app.py`) is modelled by `Fetch`:
  either the decoded UTF-8 content of the blob, or the exception the Azure
  SDK raised (source not found, credential missing, other I/O failure).
* Surfaced `st.error` messages are modelled as the list of strings the call
  produced, with the same format strings as the source (quote characters
  inside exception renderings are elided).
-/

namespace App

/-- JSON values as produced by `json.loads`, plus `nan`, the value pandas
stores for a missing field when a list of records is turned into a
`DataFrame`.  Numbers are modelled as integers. -/
inductive JVal where
  | null
  | nan
  | bool (b : Bool)
  | num (n : Int)
  | str (s : String)
  | arr (elems : List JVal)
  | obj (fields : List (String × JVal))

/-- Python exceptions that the modelled code can raise or catch. -/
inductive PyErr where
  | nameError (name : String)
  | jsonDecodeError
  | keyError (key : String)
  | typeError
  | httpError (status : Nat) (body : String)
  | resourceNotFound
  | authError
  | ioError (msg : String)
deriving DecidableEq

/-- Decimal digits of a natural number, most significant first.  The first
argument is fuel; callers pass `n + 1`, which always suffices. -/
def natDigitsGo : Nat → Nat → List Char
  | 0, _ => []
  | fuel + 1, n =>
    if n < 10 then [Char.ofNat (48 + n)]
    else natDigitsGo fuel (n / 10) ++ [Char.ofNat (48 + n % 10)]

/-- Decimal rendering of a natural number (the model avoids `Nat.repr` so
that every concrete theorem evaluates by `rfl`). -/
def natStr (n : Nat) : String :=
  String.mk (natDigitsGo (n + 1) n)

/-- Python `str()` on the values that can appear as an `article_id`.
Scalar values follow CPython exactly (`str(10) = "10"`, `str("10") = "10"`,
`str(float("nan")) = "nan"`); list and dict renderings are abbreviated, as no
claim depends on them. -/
def pyStr : JVal → String
  | .num n => if n < 0 then "-" ++ natStr n.natAbs else natStr n.natAbs
  | .str s => s
  | .bool true => "True"
  | .bool false => "False"
  | .null => "None"
  | .nan => "nan"
  | .arr _ => "<list>"
  | .obj _ => "<dict>"

/-- Abbreviated rendering of an exception, standing for Python `str(e)`
(quote characters elided). -/
def pyErrStr : PyErr → String
  | .nameError n => "name " ++ n ++ " is not defined"
  | .jsonDecodeError => "Expecting value: line 1 column 1 (char 0)"
  | .keyError k => k
  | .typeError => "TypeError: unorderable types"
  | .httpError s _ => "HTTP error " ++ natStr s
  | .resourceNotFound => "The specified blob does not exist."
  | .authError => "Connection string is either blank or malformed."
  | .ioError m => m

/-- The quotation-mark character, written by code point to keep string and
character literals simple. -/
def quoteChar : Char := Char.ofNat 34

/-- Backslash character. -/
def backslashChar : Char := Char.ofNat 92

/-- Opening curly-bracket character. -/
def lbraceChar : Char := Char.ofNat 123

/-- Closing curly-bracket character. -/
def rbraceChar : Char := Char.ofNat 125

/-- Python `str.splitlines` restricted to the line feed separator: worker
loop.  `cur` holds the characters of the current line in reverse. -/
def splitlinesGo : List Char → List Char → List String
  | [], cur => if cur.isEmpty then [] else [String.mk cur.reverse]
  | c :: cs, cur =>
    if c = Char.ofNat 10 then String.mk cur.reverse :: splitlinesGo cs []
    else splitlinesGo cs (c :: cur)

/-- Python `str.splitlines` (line 29 of the source), restricted to the line
feed separator: a trailing line feed produces no extra empty line, and the
empty string produces no lines. -/
def splitlines (s : String) : List String :=
  splitlinesGo s.data []

/-- Skip blanks and horizontal tabs. -/
def skipWs : List Char → List Char
  | [] => []
  | c :: cs => if c = ' ' ∨ c = Char.ofNat 9 then skipWs cs else c :: cs

/-- Value of a list of decimal digit characters. -/
def digitsToNat (cs : List Char) : Nat :=
  cs.foldl (fun a c => a * 10 + (c.toNat - 48)) 0

/-- Body of a JSON string literal after the opening quote: everything up to
the closing quote.  Escape sequences are outside the model and are treated
as a decode failure. -/
def parseStrBody : List Char → Option (String × List Char)
  | [] => none
  | c :: cs =>
    if c = quoteChar then some ("", cs)
    else if c = backslashChar then none
    else (parseStrBody cs).map (fun p => (String.mk (c :: p.1.data), p.2))

mutual

/-- Recursive-descent JSON value parser (fuel-indexed), modelling
`json.loads` on the fragment of JSON the data files use: integers, strings
without escapes, booleans, `null`, arrays and objects. -/
def parseVal : Nat → List Char → Option (JVal × List Char)
  | 0, _ => none
  | fuel + 1, cs =>
    match skipWs cs with
    | [] => none
    | c :: rest =>
      if c = quoteChar then
        (parseStrBody rest).map (fun p => (JVal.str p.1, p.2))
      else if c = '-' then
        let p := rest.span Char.isDigit
        if p.1.isEmpty then none
        else some (JVal.num (-(digitsToNat p.1 : Int)), p.2)
      else if c.isDigit then
        let p := (c :: rest).span Char.isDigit
        some (JVal.num (digitsToNat p.1 : Int), p.2)
      else if c = '[' then
        match skipWs rest with
        | ']' :: r => some (JVal.arr [], r)
        | cs1 => (parseElems fuel cs1).map (fun p => (JVal.arr p.1, p.2))
      else if c = lbraceChar then
        match skipWs rest with
        | c1 :: r =>
          if c1 = rbraceChar then some (JVal.obj [], r)
          else (parseMembers fuel (c1 :: r)).map (fun p => (JVal.obj p.1, p.2))
        | [] => none
      else if (c :: rest).take 4 = "true".data then
        some (JVal.bool true, (c :: rest).drop 4)
      else if (c :: rest).take 5 = "false".data then
        some (JVal.bool false, (c :: rest).drop 5)
      else if (c :: rest).take 4 = "null".data then
        some (JVal.null, (c :: rest).drop 4)
      else none

/-- Comma-separated array elements, up to and including the closing square
bracket. -/
def parseElems : Nat → List Char → Option (List JVal × List Char)
  | 0, _ => none
  | fuel + 1, cs =>
    match parseVal fuel cs with
    | none => none
    | some (v, r) =>
      match skipWs r with
      | ',' :: r2 =>
        match parseElems fuel (skipWs r2) with
        | none => none
        | some (vs, r3) => some (v :: vs, r3)
      | ']' :: r2 => some ([v], r2)
      | _ => none

/-- Comma-separated object members, up to and including the closing curly
bracket. -/
def parseMembers : Nat → List Char → Option (List (String × JVal) × List Char)
  | 0, _ => none
  | fuel + 1, cs =>
    match skipWs cs with
    | c :: rest =>
      if c = quoteChar then
        match parseStrBody rest with
        | none => none
        | some (k, r) =>
          match skipWs r with
          | ':' :: r2 =>
            match parseVal fuel (skipWs r2) with
            | none => none
            | some (v, r3) =>
              match skipWs r3 with
              | ',' :: r4 =>
                match parseMembers fuel (skipWs r4) with
                | none => none
                | some (ms, r5) => some ((k, v) :: ms, r5)
              | c5 :: r4 =>
                if c5 = rbraceChar then some ([(k, v)], r4) else none
              | [] => none
          | _ => none
      else none
    | [] => none

end

/-- Successful parse of a whole input string, or `none`: the fuel
`2 * length + 2` dominates the recursion depth of any input that parses. -/
def json_loads_core (s : String) : Option JVal :=
  match parseVal (2 * s.length + 2) s.data with
  | some (v, r) => if (skipWs r).isEmpty then some v else none
  | none => none

/-- Model of `json.loads` (lines 30 and 33 of the source): a failed parse
raises `json.JSONDecodeError`. -/
def json_loads (s : String) : Except PyErr JVal :=
  match json_loads_core s with
  | some v => Except.ok v
  | none => Except.error PyErr.jsonDecodeError

/-- The loop of lines 28-31 of the source: parse each line in order with
`json.loads`, appending to a list.  There is no per-line handler, so the
first failing line raises out of the loop and the partial list is
discarded. -/
def parseLines : List String → Except PyErr (List JVal)
  | [] => Except.ok []
  | l :: ls =>
    match json_loads l with
    | Except.error e => Except.error e
    | Except.ok v =>
      match parseLines ls with
      | Except.error e => Except.error e
      | Except.ok vs => Except.ok (v :: vs)

/-- Outcome of the blob download of lines 22-24: either the UTF-8 decoded
blob content, or the exception raised at the source level (connection
string malformed, container or blob not found, any other I/O or decode
failure). -/
inductive Fetch where
  | ok (content : String)
  | err (e : PyErr)

/-- The `st.error` format string of line 35. -/
def loadErrMsg (blob_name : String) (e : PyErr) : String :=
  "An unexpected error occurred while loading " ++ blob_name ++
    " from Blob Storage: " ++ pyErrStr e

/-- The body of the `try` block of `load_data_from_blob` (lines 21-33).
The `is_pickle` branch evaluates `pickle.loads`, but the name `pickle` is
never imported in `src/app.py`, so reaching that branch raises
`NameError`. -/
def load_body (fetch : Fetch) ( is_pickle is_json_lines : Bool) : Except PyErr JVal :=
  match fetch with
  | Fetch.err e => Except.error e
  | Fetch.ok content =>
    if is_pickle then Except.error (PyErr.nameError "pickle")
    else if is_json_lines then
      match parseLines (splitlines content) with
      | Except.error e => Except.error e
      | Except.ok vals => Except.ok (JVal.arr vals)
    else json_loads content

/-- `load_data_from_blob` (lines 16-36): any exception raised in the body is
caught by the `except Exception` handler, which surfaces one `st.error`
message and returns `None`.  The first component is the returned value
(`none` models Python `None`), the second the surfaced messages. -/
def load_data_from_blob (fetch : Fetch) (blob_name : String)
    ( is_pickle is_json_lines : Bool) : Option JVal × List String :=
  match load_body fetch is_pickle is_json_lines with
  | Except.ok v => (some v, [])
  | Except.error e => (none, [loadErrMsg blob_name e])

/-- Pandas column dtypes relevant to `optimize_dataframe_memory`. -/
inductive DType where
  | int64
  | int32
  | float64
  | float32
  | object
deriving DecidableEq

/-- One column of a pandas `DataFrame`.  Values of float-typed columns occur
in this model only as `JVal.nan` entries (a record missing a field); proper
floating-point contents are outside the model. -/
structure Column where
  name : String
  dtype : DType
  values : List JVal

/-- Keys of one JSON record, in order. -/
def rowKeys : JVal → List String
  | .obj fields => fields.map (fun p => p.1)
  | _ => []

/-- Value of a field in one record; pandas fills a missing field with
`NaN`. -/
def rowLookup (r : JVal) (k : String) : JVal :=
  match r with
  | .obj fields => (fields.lookup k).getD JVal.nan
  | _ => JVal.nan

/-- First-appearance deduplication (pandas column order), worker. -/
def firstDedupGo : List String → List String → List String
  | [], _ => []
  | k :: ks, seen =>
    if k ∈ seen then firstDedupGo ks seen else k :: firstDedupGo ks (k :: seen)

/-- First-appearance deduplication (pandas column order). -/
def firstDedup (l : List String) : List String :=
  firstDedupGo l []

/-- Dtype inference for a column built from a list of records: an
all-integer column is `int64`; integers with missing entries become
`float64` (pandas stores the gaps as `NaN`); anything else is `object`. -/
def inferDType (vals : List JVal) : DType :=
  if vals.all (fun v => match v with | .num _ => true | _ => false) then DType.int64
  else if vals.all (fun v => match v with | .num _ => true | .nan => true | _ => false) then
    DType.float64
  else DType.object

/-- `pd.DataFrame(x)` for the two shapes the pipeline produces: `None`
(failed load) gives an empty frame, and a list of records gives one column
per distinct key with `NaN` for missing fields.  Other inputs do not occur
at the call sites (lines 85 and 89) and are modelled as empty. -/
def pdDataFrame : Option JVal → List Column
  | some (.arr rows) =>
    (firstDedup ((rows.map rowKeys).flatten)).map (fun name =>
      let vals := rows.map (fun r => rowLookup r name)
      { name := name, dtype := inferDType vals, values := vals })
  | _ => []

/-- Two-complement wrap of an integer into the `int32` range, the effect of
`numpy` `astype(int32)` on an `int64` value. -/
def astype_int32_int (n : Int) : Int :=
  (n + 2147483648) % 4294967296 - 2147483648

/-- `astype(int32)` applied to one stored value. -/
def astype_int32 : JVal → JVal
  | .num n => JVal.num (astype_int32_int n)
  | v => v

/-- `optimize_dataframe_memory` (lines 38-47): each `float64` column is
re-typed `float32` (the cast preserves `NaN`, the only float value in this
model), and each `int64` column is cast to `int32`, wrapping each value
modulo `2 ^ 32`.  The two `if` statements of the source run in sequence on
each column. -/
def optimize_dataframe_memory (df : List Column) : List Column :=
  df.map (fun col =>
    let col1 := if col.dtype = DType.float64 then
        { col with dtype := DType.float32 } else col
    if col1.dtype = DType.int64 then
      { col1 with dtype := DType.int32, values := col1.values.map astype_int32 }
    else col1)

/-- Column selection `df[name]`: a missing column raises `KeyError`. -/
def dfColumn (df : List Column) (name : String) : Except PyErr (List JVal) :=
  match df.find? (fun c => c.name == name) with
  | some c => Except.ok c.values
  | none => Except.error (PyErr.keyError name)

/-- One record of `DataFrame.to_dict("records")`: a list of key-value
pairs, one per column. -/
abbrev Record := List (String × JVal)

/-- `DataFrame.to_dict("records")`: every record carries every column. -/
def to_dict_records (df : List Column) : List Record :=
  let n := (df.head?.map (fun c => c.values.length)).getD 0
  (List.range n).map (fun i => df.map (fun c => (c.name, c.values.getD i JVal.nan)))

/-- Python `record["article_id"]`-style subscription on a dict: a missing
key raises `KeyError`. -/
def record_get (r : Record) (k : String) : Except PyErr JVal :=
  match r.lookup k with
  | some v => Except.ok v
  | none => Except.error (PyErr.keyError k)

/-- Insertion into a Python dict, modelled on an association list that keeps
insertion order: an existing key has its value replaced in place, a new key
goes to the end. -/
def pyDictInsert (d : List (String × Record)) (k : String) (v : Record) :
    List (String × Record) :=
  match d with
  | [] => [(k, v)]
  | (k0, v0) :: rest =>
    if k0 = k then (k0, v) :: rest else (k0, v0) :: pyDictInsert rest k v

/-- String-canonicalized article identifier of a record, when the
`article_id` field is present. -/
def canonKey (r : Record) : Option String :=
  (r.lookup "article_id").map pyStr

/-- Worker for the dict comprehension: records are consumed left to right,
each insertion overwriting any earlier record with the same canonical
key. -/
def amdGo : List Record → List (String × Record) → Except PyErr (List (String × Record))
  | [], acc => Except.ok acc
  | a :: rest, acc =>
    match record_get a "article_id" with
    | Except.error e => Except.error e
    | Except.ok v => amdGo rest (pyDictInsert acc (pyStr v) a)

/-- The Metadata Index comprehension of line 98:
`(str(article["article_id"]), article)` for each record in order, built into
a dict; a record without the `article_id` key raises `KeyError` out of the
comprehension. -/
def articles_metadata_dict (articles : List Record) :
    Except PyErr (List (String × Record)) :=
  amdGo articles []

/-- The User Directory of line 93, `sorted(list(set(column)))`, for an
integer-valued `user_id` column. -/
def user_ids (col : List Int) : List Int :=
  List.insertionSort (fun a b => a ≤ b) col.dedup

/-- `sorted(list(set(vals)))` on the raw column values: defined for
all-integer columns; Python raises `TypeError` when it compares unordered
mixed types, and the model maps every non-integer column there (see
`inferDType`: an all-integer column is the case the application exercises).
-/
def pySortedSet (vals : List JVal) : Except PyErr (List JVal) :=
  if vals.all (fun v => match v with | .num _ => true | _ => false) then
    Except.ok ((user_ids (vals.filterMap
      (fun v => match v with | .num n => some n | _ => none))).map JVal.num)
  else Except.error PyErr.typeError

/-- The `st.error` message of line 109. -/
def connStringMissingMsg : String :=
  "AZURE_STORAGE_CONNECTION_STRING environment variable not set. Cannot load data."

/-- The module top-level load block (lines 83-111).  With a connection
string present, both blobs are loaded as JSON lines, each result is wrapped
in a `DataFrame` and memory-optimized, and then the User Directory and the
Metadata Index are derived.  The guards of lines 92 and 97 compare the
DataFrames (not the loaded lists) against `None`; `pd.DataFrame` never
returns `None`, so the then-branches always run.  The first component is
`Except.error e` when an exception escapes the block uncaught; the second
collects the surfaced `st.error` messages. -/
def top_level_load (connectionString : Option String) (userFetch articleFetch : Fetch) :
    Except PyErr (List JVal × List (String × Record)) × List String :=
  match connectionString with
  | none => (Except.ok ([], []), [connStringMissingMsg])
  | some _ =>
    let u := load_data_from_blob userFetch "user_interactions.json" false true
    let a := load_data_from_blob articleFetch "articles_metadata.json" false true
    let uDf := optimize_dataframe_memory (pdDataFrame u.1)
    let aDf := optimize_dataframe_memory (pdDataFrame a.1)
    let body : Except PyErr (List JVal × List (String × Record)) :=
      match dfColumn uDf "user_id" with
      | Except.error e => Except.error e
      | Except.ok uCol =>
        match pySortedSet uCol with
        | Except.error e => Except.error e
        | Except.ok uIds =>
          match articles_metadata_dict (to_dict_records aDf) with
          | Except.error e => Except.error e
          | Except.ok d => Except.ok (uIds, d)
    (body, u.2 ++ a.2)

/-- Outcome of the single `requests.post` call of line 57, as seen by the
surrounding `try`: a final response with its status code and body text, or
one of the request exceptions. -/
inductive NetResult where
  | response (status : Nat) (body : String)
  | connError
  | timeoutErr
  | otherReqErr (msg : String)

/-- The request `get_recommendations` sends: headers dict of lines 51-54
(the credential header carries the configured key, or Python `None` when
`AZURE_FUNCTION_KEY` is unset) and payload of line 55. -/
structure HttpRequest where
  url : String
  headers : List (String × Option String)
  payload : List (String × JVal)

/-- The request as built by lines 51-55 and handed to `requests.post`. -/
def mkRequest (endpoint : String) (key : Option String)
    (user_id n_recommendations : Int) : HttpRequest :=
  { url := endpoint
    headers := [("Content-Type", some "application/json"), ("x-functions-key", key)]
    payload := [("user_id", JVal.num user_id),
                ("n_recommendations", JVal.num n_recommendations)] }

/-- The `st.error` message of line 61. -/
def connMsg : String :=
  "Connection Error: Could not connect to the Azure Function. Please ensure it is running locally."

/-- The `st.error` message of line 64. -/
def timeoutMsg : String :=
  "Timeout Error: The request to the Azure Function timed out."

/-- The `st.error` format string of line 67, carrying the status code and
the response body. -/
def httpErrMsg (status : Nat) (body : String) : String :=
  "HTTP Error: " ++ natStr status ++ " - " ++ body

/-- The `st.error` format string of line 70. -/
def reqExcMsg (msg : String) : String :=
  "An unexpected error occurred during the request: " ++ msg

/-- The `st.error` message of line 73. -/
def decodeMsg : String :=
  "Error: Could not decode JSON response from the Azure Function."

/-- Returned value and surfaced message of the `try/except` chain of lines
56-74.  `raise_for_status` raises `HTTPError` exactly for status codes 400
to 599 (the source comment on line 58 says 4xx or 5xx); otherwise
`response.json()` decodes the body, raising `JSONDecodeError` on failure. -/
def get_rec_outcome (net : NetResult) : Option JVal × List String :=
  match net with
  | .connError => (none, [connMsg])
  | .timeoutErr => (none, [timeoutMsg])
  | .otherReqErr m => (none, [reqExcMsg m])
  | .response s b =>
    if 400 ≤ s ∧ s < 600 then (none, [httpErrMsg s b])
    else
      match json_loads_core b with
      | some v => (some v, [])
      | none => (none, [decodeMsg])

/-- `get_recommendations` (lines 49-74): the headers and payload are built
unconditionally (there is no check that a key is configured) and the POST
is always issued; the third component is the request that went out (`some`
in every reachable path).  The first component is the returned value, the
second the surfaced messages. -/
def get_recommendations (endpoint : String) (key : Option String) (net : NetResult)
    (user_id n_recommendations : Int) :
    Option JVal × List String × Option HttpRequest :=
  ((get_rec_outcome net).1, (get_rec_outcome net).2,
    some (mkRequest endpoint key user_id n_recommendations))

/-- Example article record with a numeric identifier (spec section 8). -/
def recA10 : Record := [("article_id", JVal.num 10), ("title", JVal.str "A")]

/-- Example article record with the same identifier as a string. -/
def recB10 : Record := [("article_id", JVal.str "10"), ("title", JVal.str "B")]

/-- Example article record with no `article_id` field. -/
def recNoId : Record := [("title", JVal.str "X")]

/-- Example article record holding only an identifier. -/
def recC3 : Record := [("article_id", JVal.num 3)]

/-! Helper lemmas. -/

theorem ne_of_headChar {s t : String} (h : s.data.head? ≠ t.data.head?) : s ≠ t :=
  fun e => h (by rw [e])

theorem httpErrMsg_head (s : Nat) (b : String) :
    (httpErrMsg s b).data.head? = some 'H' := rfl

theorem reqExcMsg_head (m : String) :
    (reqExcMsg m).data.head? = some 'A' := rfl

theorem loadErrMsg_head (bn : String) (e : PyErr) :
    (loadErrMsg bn e).data.head? = some 'A' := rfl

theorem pyDictInsert_lookup (d : List (String × Record)) (k k1 : String) (v : Record) :
    (pyDictInsert d k v).lookup k1 = if k1 = k then some v else d.lookup k1 := by
  induction d with
  | nil =>
    by_cases hk : k1 = k
    · simp [pyDictInsert, List.lookup, hk, beq_iff_eq]
    · have hb : (k1 == k) = false := beq_eq_false_iff_ne.mpr hk
      simp [pyDictInsert, List.lookup, hk, hb]
  | cons p rest ih =>
    obtain ⟨k0, v0⟩ := p
    by_cases h0 : k0 = k
    · subst h0
      by_cases hk : k1 = k0
      · simp [pyDictInsert, List.lookup, hk, beq_iff_eq]
      · have hb : (k1 == k0) = false := beq_eq_false_iff_ne.mpr hk
        simp [pyDictInsert, List.lookup, hk, hb]
    · by_cases hk : k1 = k0
      · subst hk
        have hb : (k1 == k1) = true := beq_iff_eq.mpr rfl
        have hkk : ¬k1 = k := fun hh => h0 hh
        simp [pyDictInsert, List.lookup, h0, hb, hkk]
      · have hb : (k1 == k0) = false := beq_eq_false_iff_ne.mpr hk
        simp [pyDictInsert, List.lookup, h0, hb, ih]

theorem json_loads_err_shape (s : String) (e : PyErr)
    (h : json_loads s = Except.error e) : e = PyErr.jsonDecodeError := by
  unfold json_loads at h
  cases hc : json_loads_core s <;> rw [hc] at h
  · exact (Except.error.inj h).symm
  · simp at h

theorem parseLines_ok (ls : List String)
    (h : ∀ l ∈ ls, ∃ v, json_loads l = Except.ok v) :
    parseLines ls = Except.ok (ls.filterMap (fun l => (json_loads l).toOption)) := by
  induction ls with
  | nil => rfl
  | cons l ls ih =>
    obtain ⟨v, hv⟩ := h l (List.mem_cons_self l ls)
    have ihr := ih (fun x hx => h x (List.mem_cons_of_mem l hx))
    simp [parseLines, hv, ihr, Except.toOption]

theorem parseLines_err (ls : List String)
    (h : ∃ l ∈ ls, json_loads l = Except.error PyErr.jsonDecodeError) :
    parseLines ls = Except.error PyErr.jsonDecodeError := by
  induction ls with
  | nil => simp at h
  | cons l ls ih =>
    cases hja : json_loads l with
    | error e =>
      have he := json_loads_err_shape l e hja
      subst he
      simp [parseLines, hja]
    | ok v =>
      obtain ⟨b, hb, hbe⟩ := h
      rcases List.mem_cons.mp hb with hba | hbl
      · subst hba
        rw [hja] at hbe
        simp at hbe
      · simp [parseLines, hja, ih ⟨b, hbl, hbe⟩]

theorem amdGo_lookup (l : List Record) (acc : List (String × Record))
    (h : ∀ a ∈ l, (a.lookup "article_id").isSome = true) :
    ∃ d, amdGo l acc = Except.ok d ∧
      ∀ k, d.lookup k =
        Option.or (l.reverse.find? (fun a => canonKey a == some k)) (acc.lookup k) := by
  induction l generalizing acc with
  | nil =>
    exact ⟨acc, rfl, fun k => by simp [Option.or]⟩
  | cons a l ih =>
    have ha := h a (List.mem_cons_self a l)
    obtain ⟨v, hv⟩ := Option.isSome_iff_exists.mp ha
    have hget : record_get a "article_id" = Except.ok v := by
      simp [record_get, hv]
    have hstep : amdGo (a :: l) acc = amdGo l (pyDictInsert acc (pyStr v) a) := by
      simp [amdGo, hget]
    obtain ⟨d, hd, hl⟩ := ih (pyDictInsert acc (pyStr v) a)
      (fun x hx => h x (List.mem_cons_of_mem a hx))
    refine ⟨d, hstep.trans hd, fun k => ?_⟩
    rw [hl k, List.reverse_cons, List.find?_append, pyDictInsert_lookup]
    have hcanon : canonKey a = some (pyStr v) := by simp [canonKey, hv]
    by_cases hk : k = pyStr v
    · subst hk
      simp [hcanon, Option.or]
      cases List.find? (fun a => canonKey a == some (pyStr v)) l.reverse <;> simp [Option.or]
    · have hfa : (canonKey a == some k) = false := by
        simp [hcanon]
        exact fun hh => hk hh.symm
      have hpne : ¬canonKey a = some k := by
        rw [hcanon]
        intro hh
        exact hk (Option.some.inj hh).symm
      simp only [hfa, if_neg hk]
      cases List.find? (fun a => canonKey a == some k) l.reverse <;>
        simp [Option.or, hpne]

theorem amdGo_err (l : List Record) (acc : List (String × Record))
    (h : ∃ a ∈ l, a.lookup "article_id" = none) :
    amdGo l acc = Except.error (PyErr.keyError "article_id") := by
  induction l generalizing acc with
  | nil => simp at h
  | cons a l ih =>
    cases ha : a.lookup "article_id" with
    | none => simp [amdGo, record_get, ha]
    | some v =>
      obtain ⟨b, hb, hbe⟩ := h
      rcases List.mem_cons.mp hb with hba | hbl
      · subst hba
        rw [ha] at hbe
        simp at hbe
      · simp [amdGo, record_get, ha, ih _ ⟨b, hbl, hbe⟩]

/-! Claim theorems. -/

/-- C1, counterexample: the json-lines loop of `load_data_from_blob` has no
per-line handler, so the input of two valid lines and one malformed line
yields `None` instead of the two decoded records the claim requires. -/
theorem single_malformed_line_not_skipped :
    (load_data_from_blob (Fetch.ok "1\nnotjson\n2") "user_interactions.json"
        false true).1 = none
  ∧ (load_data_from_blob (Fetch.ok "1\nnotjson\n2") "user_interactions.json"
        false true).1 ≠ some (JVal.arr [JVal.num 1, JVal.num 2]) :=
  ⟨rfl, fun h => nomatch h⟩

/-- C1, amended: the lines of a json-lines blob are parsed sequentially with
no per-line handler.  When every line parses, all of them are decoded in
order; as soon as any line fails to parse, the decode error propagates to
the outer handler, which reports one warning and returns `None` for the
whole load, discarding every decoded record. -/
theorem json_lines_load_all_or_nothing : ∀ (content bn : String),
    ((∀ l ∈ splitlines content, ∃ v, json_loads l = Except.ok v) →
      load_data_from_blob (Fetch.ok content) bn false true
        = (some (JVal.arr ((splitlines content).filterMap
            (fun l => (json_loads l).toOption))), []))
  ∧ ((∃ l ∈ splitlines content, json_loads l = Except.error PyErr.jsonDecodeError) →
      load_data_from_blob (Fetch.ok content) bn false true
        = (none, [loadErrMsg bn PyErr.jsonDecodeError])) := by
  intro content bn
  constructor
  · intro h
    simp [load_data_from_blob, load_body, parseLines_ok _ h]
  · intro h
    simp [load_data_from_blob, load_body, parseLines_err _ h]

/-- Witness for C1 amended: a two-line input where every line parses is
decoded in full, and the counterexample input hits the abort branch. -/
theorem json_lines_load_all_or_nothing_witness :
    load_data_from_blob (Fetch.ok "1\n2") "user_interactions.json" false true
      = (some (JVal.arr [JVal.num 1, JVal.num 2]), [])
  ∧ load_data_from_blob (Fetch.ok "1\nnotjson\n2") "user_interactions.json" false true
      = (none, [loadErrMsg "user_interactions.json" PyErr.jsonDecodeError]) := by
  constructor
  · have h := (json_lines_load_all_or_nothing "1\n2" "user_interactions.json").1 ?hp
    case hp =>
      intro l hl
      have hs : splitlines "1\n2" = ["1", "2"] := rfl
      rw [hs] at hl
      simp at hl
      rcases hl with rfl | rfl
      · exact ⟨JVal.num 1, rfl⟩
      · exact ⟨JVal.num 2, rfl⟩
    exact h
  · refine (json_lines_load_all_or_nothing "1\nnotjson\n2" "user_interactions.json").2 ?_
    refine ⟨"notjson", ?_, rfl⟩
    have hs : splitlines "1\nnotjson\n2" = ["1", "notjson", "2"] := rfl
    rw [hs]
    simp

/-- C2: every source-level failure of the blob fetch (source not found,
credential or connection failure, any other I/O failure) and every decode
failure of the blob content is caught by the handler of
`load_data_from_blob`, which surfaces exactly one report and returns the
empty result `None`; nothing is raised past this layer. -/
theorem source_failure_reported_empty :
    (∀ (e : PyErr) (bn : String) (p jl : Bool),
       load_data_from_blob (Fetch.err e) bn p jl = (none, [loadErrMsg bn e]))
  ∧ (∀ (c bn : String), json_loads c = Except.error PyErr.jsonDecodeError →
       load_data_from_blob (Fetch.ok c) bn false false
         = (none, [loadErrMsg bn PyErr.jsonDecodeError])) := by
  constructor
  · intro e bn p jl
    rfl
  · intro c bn h
    simp [load_data_from_blob, load_body, h]

/-- Witness for C2: a not-found source and a malformed whole-document blob
each yield the empty result with one report. -/
theorem source_failure_reported_empty_witness :
    load_data_from_blob (Fetch.err PyErr.resourceNotFound) "user_interactions.json"
        false true
      = (none, [loadErrMsg "user_interactions.json" PyErr.resourceNotFound])
  ∧ load_data_from_blob (Fetch.ok "x") "articles_metadata.json" false false
      = (none, [loadErrMsg "articles_metadata.json" PyErr.jsonDecodeError]) :=
  ⟨source_failure_reported_empty.1 PyErr.resourceNotFound "user_interactions.json" false true,
   source_failure_reported_empty.2 "x" "articles_metadata.json" rfl⟩

/-- C3: when every record carries an `article_id`, the Metadata Index maps
each string-canonicalized identifier to the last record in the sequence with
that canonical key (`find?` over the reversed sequence); numeric `1` and
string `"1"` canonicalize to the same key; and the two-record example of the
spec produces exactly the index with title `B` under key `"10"`. -/
theorem metadata_index_canonical_last_wins :
    (∀ (articles : List Record),
       (∀ a ∈ articles, (a.lookup "article_id").isSome = true) →
       ∃ d, articles_metadata_dict articles = Except.ok d ∧
         ∀ k, d.lookup k = articles.reverse.find? (fun a => canonKey a == some k))
  ∧ pyStr (JVal.num 1) = pyStr (JVal.str "1")
  ∧ articles_metadata_dict [recA10, recB10] = Except.ok [("10", recB10)] := by
  refine ⟨?_, rfl, rfl⟩
  intro articles h
  obtain ⟨d, hd, hl⟩ := amdGo_lookup articles [] h
  refine ⟨d, hd, fun k => ?_⟩
  rw [hl k]
  cases articles.reverse.find? (fun a => canonKey a == some k) <;>
    simp [Option.or, List.lookup]

/-- Witness for C3: the canonical-last-wins characterization evaluated on
the two-record example. -/
theorem metadata_index_canonical_last_wins_witness :
    ([("10", recB10)] : List (String × Record)).lookup "10"
      = [recA10, recB10].reverse.find? (fun a => canonKey a == some "10") := by
  obtain ⟨d, hd, hl⟩ :=
    metadata_index_canonical_last_wins.1 [recA10, recB10] (by decide)
  have h2 := metadata_index_canonical_last_wins.2.2
  rw [h2] at hd
  have hdv : [("10", recB10)] = d := Except.ok.inj hd
  rw [← hdv] at hl
  exact hl "10"

/-- C4: the User Directory is sorted ascending, contains no duplicates, and
holds exactly the `user_id` values of the input, for any input multiset;
the interactions `7, 3, 7` yield the directory `[3, 7]`. -/
theorem user_directory_sorted_nodup :
    (∀ (col : List Int),
       (user_ids col).Sorted (fun a b => a ≤ b)
       ∧ (user_ids col).Nodup
       ∧ ∀ x : Int, x ∈ user_ids col ↔ x ∈ col)
  ∧ user_ids [7, 3, 7] = [3, 7] := by
  refine ⟨fun col => ⟨?_, ?_, fun x => ?_⟩, rfl⟩
  · exact List.sorted_insertionSort _ _
  · exact (List.perm_insertionSort _ _).nodup_iff.mpr (List.nodup_dedup col)
  · exact (List.perm_insertionSort _ _).mem_iff.trans List.mem_dedup

/-- C5, counterexample: a final response with the non-2xx status 304 does
not produce the HTTP-error outcome carrying its status code —
`raise_for_status` raises only for 4xx and 5xx, so the empty 304 body falls
through to JSON decoding and the decode-failure message is surfaced
instead. -/
theorem non2xx_below_400_not_http_outcome :
    (get_recommendations "http://localhost:7071/api/recommend" (some "k")
        (NetResult.response 304 "") 1 5).2.1 = [decodeMsg]
  ∧ decodeMsg ≠ httpErrMsg 304 "" :=
  ⟨rfl, by decide⟩

/-- C5, amended: each failure kind of the Recommendation Client —
connection failure, timeout, HTTP 4xx/5xx status, response-body decode
failure, and any other request exception — surfaces a distinct message to
the caller; the 4xx/5xx outcome carries the status code and response body
(a non-2xx status below 400 instead falls through to body decoding); and an
endpoint returning HTTP 500 yields the HTTP-error outcome carrying 500. -/
theorem client_failures_distinguishable :
    (∀ (endpoint : String) (key : Option String) (uid n : Int) (s : Nat) (b : String),
       400 ≤ s → s < 600 →
       get_recommendations endpoint key (NetResult.response s b) uid n
         = (none, [httpErrMsg s b], some (mkRequest endpoint key uid n)))
  ∧ (∀ (s : Nat) (b : String), httpErrMsg s b ≠ connMsg ∧ httpErrMsg s b ≠ timeoutMsg
       ∧ httpErrMsg s b ≠ decodeMsg ∧ ∀ m, httpErrMsg s b ≠ reqExcMsg m)
  ∧ (connMsg ≠ timeoutMsg ∧ connMsg ≠ decodeMsg ∧ timeoutMsg ≠ decodeMsg
       ∧ ∀ m, reqExcMsg m ≠ connMsg ∧ reqExcMsg m ≠ timeoutMsg ∧ reqExcMsg m ≠ decodeMsg)
  ∧ (∀ (endpoint : String) (key : Option String) (uid n : Int) (b : String),
       (get_recommendations endpoint key (NetResult.response 500 b) uid n).2.1
         = [httpErrMsg 500 b]) := by
  refine ⟨?_, ?_, ?_, ?_⟩
  · intro endpoint key uid n s b h1 h2
    simp [get_recommendations, get_rec_outcome, h1, h2]
  · intro s b
    refine ⟨?_, ?_, ?_, fun m => ?_⟩
    · exact ne_of_headChar (by rw [httpErrMsg_head]; decide)
    · exact ne_of_headChar (by rw [httpErrMsg_head]; decide)
    · exact ne_of_headChar (by rw [httpErrMsg_head]; decide)
    · exact ne_of_headChar (by rw [httpErrMsg_head, reqExcMsg_head]; decide)
  · refine ⟨by decide, by decide, by decide, fun m => ⟨?_, ?_, ?_⟩⟩
    · exact ne_of_headChar (by rw [reqExcMsg_head]; decide)
    · exact ne_of_headChar (by rw [reqExcMsg_head]; decide)
    · exact ne_of_headChar (by rw [reqExcMsg_head]; decide)
  · intro endpoint key uid n b
    rfl

/-- Witness for C5 amended: the HTTP-error branch evaluated at a 500
response. -/
theorem client_failures_distinguishable_witness :
    get_recommendations "http://localhost:7071/api/recommend" (some "k")
        (NetResult.response 500 "Internal Server Error") 1 5
      = (none, [httpErrMsg 500 "Internal Server Error"],
         some (mkRequest "http://localhost:7071/api/recommend" (some "k") 1 5)) :=
  client_failures_distinguishable.1 "http://localhost:7071/api/recommend" (some "k")
    1 5 500 "Internal Server Error" (by decide) (by decide)

/-- C6, code bug: when the user-interactions load fails, the loader returns
`None`, `pd.DataFrame(None)` is an empty DataFrame (not `None`, so the
guard of line 92 passes), and the column access `user_interactions["user_id"]`
of line 93 raises a `KeyError` that no handler catches — the workflow run
terminates on an uncaught exception instead of degrading. -/
theorem load_failure_uncaught_keyerror :
    top_level_load (some "cs") (Fetch.err PyErr.resourceNotFound) (Fetch.ok "")
      = (Except.error (PyErr.keyError "user_id"),
         [loadErrMsg "user_interactions.json" PyErr.resourceNotFound]) := rfl

/-- C7, code bug: with no credential configured (`AZURE_FUNCTION_KEY` is
`None`), `get_recommendations` still issues the remote request, and the
headers dict it sends carries the `x-functions-key` entry with the absent
value — there is no precondition check before the call. -/
theorem request_issued_without_credential :
    ∀ (endpoint : String) (net : NetResult) (uid n : Int),
      (get_recommendations endpoint none net uid n).2.2
        = some (mkRequest endpoint none uid n)
      ∧ ("x-functions-key", (none : Option String))
          ∈ (mkRequest endpoint none uid n).headers :=
  fun _ _ _ _ => ⟨rfl, List.Mem.tail _ (List.Mem.head _)⟩

/-- C8, counterexample: a record without an `article_id` field is not
silently dropped — building the Metadata Index from it raises `KeyError`
and produces no index at all, where the claim requires the empty index. -/
theorem missing_article_id_raises_keyerror :
    articles_metadata_dict [recNoId] = Except.error (PyErr.keyError "article_id")
  ∧ articles_metadata_dict [recNoId] ≠ Except.ok [] :=
  ⟨rfl, fun h => nomatch h⟩

/-- C8, amended: when every record carries an `article_id`, each record is
inserted under its string-canonicalized form (its canonical key is present
in the index); a record missing the field is not dropped — it raises a
`KeyError` that aborts index construction. -/
theorem metadata_index_insertion_and_missing_key :
    (∀ (articles : List Record),
       (∀ a ∈ articles, (a.lookup "article_id").isSome = true) →
       ∃ d, articles_metadata_dict articles = Except.ok d ∧
         ∀ a ∈ articles, ∀ ck, canonKey a = some ck → (d.lookup ck).isSome = true)
  ∧ (∀ (articles : List Record) (a : Record), a ∈ articles →
       a.lookup "article_id" = none →
       articles_metadata_dict articles = Except.error (PyErr.keyError "article_id")) := by
  constructor
  · intro articles h
    obtain ⟨d, hd, hl⟩ := amdGo_lookup articles [] h
    refine ⟨d, hd, fun a ha ck hck => ?_⟩
    rw [hl ck]
    have hfind : (articles.reverse.find?
        (fun r => canonKey r == some ck)).isSome = true := by
      rw [List.find?_isSome]
      exact ⟨a, List.mem_reverse.mpr ha, by simp [hck]⟩
    obtain ⟨r, hr⟩ := Option.isSome_iff_exists.mp hfind
    simp [hr, Option.or]
  · intro articles a ha hnone
    exact amdGo_err articles [] ⟨a, ha, hnone⟩

/-- Witness for C8 amended: a one-record input with an identifier lands in
the index under its canonical key, and a one-record input without the field
aborts with `KeyError`. -/
theorem metadata_index_insertion_and_missing_key_witness :
    (([("3", recC3)] : List (String × Record)).lookup "3").isSome = true
  ∧ articles_metadata_dict [recNoId] = Except.error (PyErr.keyError "article_id") := by
  constructor
  · obtain ⟨d, hd, hmem⟩ :=
      metadata_index_insertion_and_missing_key.1 [recC3] (by decide)
    have h0 : articles_metadata_dict [recC3] = Except.ok [("3", recC3)] := rfl
    rw [h0] at hd
    have hdv : [("3", recC3)] = d := Except.ok.inj hd
    rw [← hdv] at hmem
    exact hmem recC3 (List.mem_singleton.mpr rfl) "3" rfl
  · exact metadata_index_insertion_and_missing_key.2 [recNoId] recNoId
      (List.mem_singleton.mpr rfl) rfl

/-- C9: `optimize_dataframe_memory` re-types every `int64` column to
`int32`, wrapping each stored value modulo `2 ^ 32` into the 32-bit range
(values inside the range pass through unchanged, values at or above `2 ^ 31`
are not preserved), and re-types every `float64` column to `float32`. -/
theorem optimize_memory_int32_narrowing :
    (∀ (df : List Column) (i : Nat) (col : Column), df[i]? = some col →
       col.dtype = DType.int64 →
       (optimize_dataframe_memory df)[i]?
         = some { col with dtype := DType.int32,
                           values := col.values.map astype_int32 })
  ∧ (∀ (df : List Column) (i : Nat) (col : Column), df[i]? = some col →
       col.dtype = DType.float64 →
       (optimize_dataframe_memory df)[i]? = some { col with dtype := DType.float32 })
  ∧ (∀ n : Int, -(2 ^ 31) ≤ n → n < 2 ^ 31 → astype_int32_int n = n)
  ∧ (∀ n : Int, (astype_int32_int n - n) % 2 ^ 32 = 0)
  ∧ (∀ n : Int, 2 ^ 31 ≤ n → astype_int32_int n ≠ n) := by
  have e31 : ((2 : Int) ^ 31) = 2147483648 := by norm_num
  have e32 : ((2 : Int) ^ 32) = 4294967296 := by norm_num
  refine ⟨?_, ?_, ?_, ?_, ?_⟩
  · intro df i col hget hdt
    unfold optimize_dataframe_memory
    rw [List.getElem?_map, hget]
    simp [hdt]
  · intro df i col hget hdt
    unfold optimize_dataframe_memory
    rw [List.getElem?_map, hget]
    simp [hdt]
  · intro n h1 h2
    rw [e31] at h1 h2
    unfold astype_int32_int
    omega
  · intro n
    rw [e32]
    unfold astype_int32_int
    omega
  · intro n h1
    rw [e31] at h1
    unfold astype_int32_int
    omega

/-- Witness for C9: an `int64` identifier column with one in-range and one
out-of-range value, a `float64` column, and the three arithmetic facts at
concrete points. -/
theorem optimize_memory_int32_narrowing_witness :
    (optimize_dataframe_memory
        [⟨"user_id", DType.int64, [JVal.num 7, JVal.num 4294967296]⟩])[0]?
      = some ⟨"user_id", DType.int32, [JVal.num 7, JVal.num 0]⟩
  ∧ (optimize_dataframe_memory [⟨"score", DType.float64, [JVal.nan]⟩])[0]?
      = some ⟨"score", DType.float32, [JVal.nan]⟩
  ∧ astype_int32_int 5 = 5
  ∧ (astype_int32_int 2147483653 - 2147483653) % 2 ^ 32 = 0
  ∧ astype_int32_int 2147483648 ≠ 2147483648 := by
  refine ⟨?_, ?_, ?_, ?_, ?_⟩
  · exact optimize_memory_int32_narrowing.1
      [⟨"user_id", DType.int64, [JVal.num 7, JVal.num 4294967296]⟩] 0
      ⟨"user_id", DType.int64, [JVal.num 7, JVal.num 4294967296]⟩ rfl rfl
  · exact optimize_memory_int32_narrowing.2.1
      [⟨"score", DType.float64, [JVal.nan]⟩] 0
      ⟨"score", DType.float64, [JVal.nan]⟩ rfl rfl
  · exact optimize_memory_int32_narrowing.2.2.1 5 (by norm_num) (by norm_num)
  · exact optimize_memory_int32_narrowing.2.2.2.1 2147483653
  · exact optimize_memory_int32_narrowing.2.2.2.2 2147483648 (by norm_num)

/-- C10: with `is_pickle=True` the loader returns `None` for every input:
when the download succeeds, the branch evaluates the never-imported name
`pickle`, raising `NameError`, which the handler reports as a load failure;
when the download fails, the source-level failure is reported instead. -/
theorem pickle_branch_always_none :
    (∀ (fetch : Fetch) (bn : String) (jl : Bool),
       (load_data_from_blob fetch bn true jl).1 = none)
  ∧ (∀ (c bn : String) (jl : Bool),
       load_data_from_blob (Fetch.ok c) bn true jl
         = (none, [loadErrMsg bn (PyErr.nameError "pickle")])) := by
  constructor
  · intro fetch bn jl
    cases fetch <;> rfl
  · intro c bn jl
    rfl

end App
